import Mathlib

/-!
Verification of the payroll manager (models.py, services.py, main.py).

Numbers: Python floats are modelled as exact rationals; Python round(x, 2)
is modelled as decimal rounding half-to-even at two decimal places.
File system state is modelled as an association list from file names to
file contents, in creation order.
-/

/-- Round a rational to the nearest integer, ties to even (Python round). -/
def round_half_even (q : ℚ) : ℤ :=
  if q - ⌊q⌋ < 1/2 then ⌊q⌋
  else if 1/2 < q - ⌊q⌋ then ⌊q⌋ + 1
  else if ⌊q⌋ % 2 = 0 then ⌊q⌋ else ⌊q⌋ + 1

/-- Python round(x, 2): round to two decimal places, ties to even. -/
def round2 (q : ℚ) : ℚ := (round_half_even (q * 100) : ℚ) / 100

/-- Employee record (models.py, class Empleado). -/
structure Empleado where
  cedula : String
  nombre : String
  sueldo : ℚ
  departamento : String
  cargo : String
deriving DecidableEq, Repr

/-- One employee's payroll line (models.py, class DetalleNomina). -/
structure DetalleNomina where
  id : ℕ
  empleado : Empleado
  sueldo : ℚ
  bono : ℚ
  tot_ing : ℚ
  iess : ℚ
  prestamo : ℚ
  tot_des : ℚ
  neto : ℚ
deriving DecidableEq, Repr

/-- DetalleNomina.__init__ (models.py lines 58-69): stores the inputs and
computes tot_ing, iess, tot_des, neto from them. -/
def mk_detalle (id : ℕ) (empleado : Empleado) (sueldo bono prestamo : ℚ) :
    DetalleNomina :=
  { id := id
    empleado := empleado
    sueldo := sueldo
    bono := bono
    tot_ing := sueldo + bono
    iess := round2 (sueldo * (0.0945 : ℚ))
    prestamo := prestamo
    tot_des := round2 (sueldo * (0.0945 : ℚ)) + prestamo
    neto := (sueldo + bono) - (round2 (sueldo * (0.0945 : ℚ)) + prestamo) }

/-- Monthly payroll aggregate (models.py, class Nomina). -/
structure Nomina where
  id : ℕ
  aniomes : String
  tot_ing : ℚ
  tot_des : ℚ
  neto : ℚ
  detalles : List DetalleNomina
deriving DecidableEq, Repr

/-- Class attribute Nomina.BONO (models.py line 87). -/
def BONO : ℚ := 50

/-- Class attribute Nomina.PRESTAMO (models.py line 88). -/
def PRESTAMO : ℚ := 20

/-- Nomina.__init__ (models.py lines 90-96): totals start at zero, no details. -/
def nueva_nomina (id : ℕ) (aniomes : String) : Nomina :=
  { id := id, aniomes := aniomes, tot_ing := 0, tot_des := 0, neto := 0,
    detalles := [] }

/-- Nomina.generar_detalle (models.py lines 98-109). -/
def generar_detalle (empleado : Empleado) (id_detalle : ℕ) : DetalleNomina :=
  mk_detalle id_detalle empleado empleado.sueldo BONO PRESTAMO

/-- Nomina.agregar_detalle (models.py lines 111-116): appends the detail and
updates the three running totals incrementally. -/
def agregar_detalle (n : Nomina) (detalle : DetalleNomina) : Nomina :=
  { n with
    detalles := n.detalles ++ [detalle]
    tot_ing := n.tot_ing + detalle.tot_ing
    tot_des := n.tot_des + detalle.tot_des
    neto := n.neto + detalle.neto }

/-- Stored form of a payroll detail (DetalleNomina.to_dict, models.py 71-83). -/
structure RegistroDetalle where
  id : ℕ
  empleado : String
  sueldo : ℚ
  bono : ℚ
  tot_ing : ℚ
  iess : ℚ
  prestamo : ℚ
  tot_des : ℚ
  neto : ℚ
deriving DecidableEq, Repr

/-- Stored form of a payroll document (Nomina.to_dict, models.py 118-127). -/
structure NominaDoc where
  id : ℕ
  aniomes : String
  tot_ing : ℚ
  tot_des : ℚ
  neto : ℚ
  detalles : List RegistroDetalle
deriving DecidableEq, Repr

/-- DetalleNomina.to_dict (models.py lines 71-83). -/
def detalle_to_dict (d : DetalleNomina) : RegistroDetalle :=
  { id := d.id, empleado := d.empleado.nombre, sueldo := d.sueldo,
    bono := d.bono, tot_ing := d.tot_ing, iess := d.iess,
    prestamo := d.prestamo, tot_des := d.tot_des, neto := d.neto }

/-- Nomina.to_dict (models.py lines 118-127). -/
def nomina_to_dict (n : Nomina) : NominaDoc :=
  { id := n.id, aniomes := n.aniomes, tot_ing := n.tot_ing,
    tot_des := n.tot_des, neto := n.neto,
    detalles := n.detalles.map detalle_to_dict }

/-- ASCII letter, the character class a-zA-Z of the validation regexes
(models.py lines 31-38). -/
def es_letra_ascii (c : Char) : Bool :=
  ('a' ≤ c && c ≤ 'z') || ('A' ≤ c && c ≤ 'Z')

/-- Code point ranges matched by the regex class backslash-s in a Python 3
str pattern: exactly the characters ch with ch.isspace() true — tab through
carriage return, the information separators, space, next line, no-break
space, ogham space mark, the Unicode spaces, the line and paragraph
separators, narrow no-break space, medium mathematical space and
ideographic space. -/
def rangos_espacio_py : List (ℕ × ℕ) :=
  [(0x9, 0xd), (0x1c, 0x20), (0x85, 0x85), (0xa0, 0xa0), (0x1680, 0x1680),
   (0x2000, 0x200a), (0x2028, 0x2029), (0x202f, 0x202f), (0x205f, 0x205f),
   (0x3000, 0x3000)]

/-- Whitespace as matched by the regex class backslash-s in Python. -/
def es_espacio_py (c : Char) : Bool :=
  rangos_espacio_py.any (fun r => r.1 ≤ c.toNat && c.toNat ≤ r.2)

/-- Full match of the text-field regex of models.py lines 31-38: one or
more characters, each a letter or whitespace. -/
def texto_valido (s : String) : Bool :=
  !s.data.isEmpty && s.data.all (fun c => es_letra_ascii c || es_espacio_py c)

/-- Modelled from the spec's words (sections 3 and 4.1): a text field must
consist only of letters and spaces and be non-empty.  Used to compare the
spec's stated rule against the source's regex, which also accepts other
whitespace characters. -/
def solo_letras_y_espacios (s : String) : Bool :=
  !s.data.isEmpty && s.data.all (fun c => es_letra_ascii c || c == ' ')

/-- Code point ranges of the characters Python str.isdigit() accepts:
Unicode Numeric_Type Decimal or Digit — every script's decimal digits plus
superscript, subscript, circled, parenthesized and similar digit forms. -/
def rangos_digito_py : List (ℕ × ℕ) :=
  [(0x30, 0x39), (0xb2, 0xb3), (0xb9, 0xb9), (0x660, 0x669),
   (0x6f0, 0x6f9), (0x7c0, 0x7c9), (0x966, 0x96f), (0x9e6, 0x9ef),
   (0xa66, 0xa6f), (0xae6, 0xaef), (0xb66, 0xb6f), (0xbe6, 0xbef),
   (0xc66, 0xc6f), (0xce6, 0xcef), (0xd66, 0xd6f), (0xde6, 0xdef),
   (0xe50, 0xe59), (0xed0, 0xed9), (0xf20, 0xf29), (0x1040, 0x1049),
   (0x1090, 0x1099), (0x1369, 0x1371), (0x17e0, 0x17e9), (0x1810, 0x1819),
   (0x1946, 0x194f), (0x19d0, 0x19da), (0x1a80, 0x1a89), (0x1a90, 0x1a99),
   (0x1b50, 0x1b59), (0x1bb0, 0x1bb9), (0x1c40, 0x1c49), (0x1c50, 0x1c59),
   (0x2070, 0x2070), (0x2074, 0x2079), (0x2080, 0x2089), (0x2460, 0x2468),
   (0x2474, 0x247c), (0x2488, 0x2490), (0x24ea, 0x24ea), (0x24f5, 0x24fd),
   (0x24ff, 0x24ff), (0x2776, 0x277e), (0x2780, 0x2788), (0x278a, 0x2792),
   (0xa620, 0xa629), (0xa8d0, 0xa8d9), (0xa900, 0xa909), (0xa9d0, 0xa9d9),
   (0xa9f0, 0xa9f9), (0xaa50, 0xaa59), (0xabf0, 0xabf9), (0xff10, 0xff19),
   (0x104a0, 0x104a9), (0x10a40, 0x10a43), (0x10d30, 0x10d39),
   (0x10e60, 0x10e68), (0x11052, 0x1105a), (0x11066, 0x1106f),
   (0x110f0, 0x110f9), (0x11136, 0x1113f), (0x111d0, 0x111d9),
   (0x112f0, 0x112f9), (0x11450, 0x11459), (0x114d0, 0x114d9),
   (0x11650, 0x11659), (0x116c0, 0x116c9), (0x11730, 0x11739),
   (0x118e0, 0x118e9), (0x11950, 0x11959), (0x11c50, 0x11c59),
   (0x11d50, 0x11d59), (0x11da0, 0x11da9), (0x16a60, 0x16a69),
   (0x16ac0, 0x16ac9), (0x16b50, 0x16b59), (0x1d7ce, 0x1d7ff),
   (0x1e140, 0x1e149), (0x1e2f0, 0x1e2f9), (0x1e950, 0x1e959),
   (0x1f100, 0x1f10a), (0x1fbf0, 0x1fbf9)]

/-- Python str.isdigit on a single character. -/
def es_digito_py (c : Char) : Bool :=
  rangos_digito_py.any (fun r => r.1 ≤ c.toNat && c.toNat ≤ r.2)

/-- Cedula check of models.py line 26: every character a digit in the sense
of str.isdigit and length exactly 10. -/
def cedula_valida (s : String) : Bool :=
  s.data.all es_digito_py && s.length == 10

/-- Candidate employee record passed to create: a Python dict that may
lack fields.  A missing field is none. -/
structure Candidato where
  cedula : Option String
  nombre : Option String
  sueldo : Option ℚ
  departamento : Option String
  cargo : Option String
deriving DecidableEq, Repr

/-- Failure kinds raised by validate_empleado as ValueError (models.py). -/
inductive ValidationError where
  | missingField
  | invalidSalary
  | invalidCedula
  | invalidText
deriving DecidableEq, Repr

/-- Decorator validate_empleado (models.py lines 6-41), as a function from a
candidate to ok or the ValueError it raises, preserving the source's check
order: missing fields, then sueldo, cedula, nombre, departamento, cargo. -/
def validate_empleado (e : Candidato) : Except ValidationError Unit :=
  match e.cedula, e.nombre, e.sueldo, e.departamento, e.cargo with
  | some ced, some nom, some sue, some dep, some car =>
    if sue ≤ 0 then .error .invalidSalary
    else if !cedula_valida ced then .error .invalidCedula
    else if !texto_valido nom then .error .invalidText
    else if !texto_valido dep then .error .invalidText
    else if !texto_valido car then .error .invalidText
    else .ok ()
  | _, _, _, _, _ => .error .missingField

/-- True when the candidate supplies all five required fields. -/
def campos_completos (e : Candidato) : Bool :=
  e.cedula.isSome && e.nombre.isSome && e.sueldo.isSome
    && e.departamento.isSome && e.cargo.isSome

/-- GestorEmpleados.crear_empleado (services.py lines 60-68).  The decorator
runs first; a validation failure is a raised ValueError, modelled as the
error case.  Otherwise the duplicate check returns false, or the employee
is appended and true is returned. -/
def crear_empleado (empleados : List Empleado) (cand : Candidato) :
    Except ValidationError (List Empleado × Bool) :=
  match validate_empleado cand with
  | .error err => .error err
  | .ok _ =>
    if empleados.any (fun e => some e.cedula = cand.cedula) then
      .ok (empleados, false)
    else
      .ok (empleados ++
        [{ cedula := cand.cedula.getD "", nombre := cand.nombre.getD "",
           sueldo := cand.sueldo.getD 0,
           departamento := cand.departamento.getD "",
           cargo := cand.cargo.getD "" }], true)

/-- Changes dict passed to modificar_empleado: each key optional. -/
structure Cambios where
  cedula : Option String := none
  nombre : Option String := none
  sueldo : Option ℚ := none
  departamento : Option String := none
  cargo : Option String := none
deriving DecidableEq, Repr

/-- The setattr loop of modificar_empleado (services.py lines 80-81): each
supplied key overwrites the attribute, absent keys leave it unchanged. -/
def aplicar_cambios (c : Cambios) (e : Empleado) : Empleado :=
  { cedula := c.cedula.getD e.cedula
    nombre := c.nombre.getD e.nombre
    sueldo := c.sueldo.getD e.sueldo
    departamento := c.departamento.getD e.departamento
    cargo := c.cargo.getD e.cargo }

/-- GestorEmpleados.modificar_empleado (services.py lines 74-83): finds the
first employee with the given cedula; if absent returns false, otherwise
applies the changes to it and returns true.  No validation is performed. -/
def modificar_empleado : List Empleado → String → Cambios →
    List Empleado × Bool
  | [], _, _ => ([], false)
  | e :: es, ced, c =>
    if e.cedula = ced then (aplicar_cambios c e :: es, true)
    else
      let r := modificar_empleado es ced c
      (e :: r.1, r.2)

/-- GestorEmpleados.eliminar_empleado (services.py lines 85-93): removes the
first employee with the given cedula, or returns false if absent. -/
def eliminar_empleado : List Empleado → String → List Empleado × Bool
  | [], _ => ([], false)
  | e :: es, ced =>
    if e.cedula = ced then (es, true)
    else
      let r := eliminar_empleado es ced
      (e :: r.1, r.2)

/-- Raw employee record as stored in empleados.json (keys of
Empleado.to_dict). -/
structure RegistroEmpleado where
  cedula : String
  nombre : String
  sueldo : ℚ
  departamento : String
  cargo : String
deriving DecidableEq, Repr

/-- Empleado(**e) applied to a stored record (services.py line 53). -/
def empleado_de_registro (r : RegistroEmpleado) : Empleado :=
  { cedula := r.cedula, nombre := r.nombre, sueldo := r.sueldo,
    departamento := r.departamento, cargo := r.cargo }

/-- State of the roster file as seen by RepositorioEmpleados.cargar_datos:
the file may be absent, present but not a well-formed list of employee
records (json.load or Empleado(**e) raises), or well formed. -/
inductive ContenidoArchivo where
  | ausente
  | malformado
  | valido (registros : List RegistroEmpleado)
deriving DecidableEq, Repr

/-- Errors raised while loading: a json.JSONDecodeError or TypeError from a
malformed document, neither of which is caught anywhere in the program. -/
inductive ErrorCarga where
  | decodificacion
deriving DecidableEq, Repr

/-- RepositorioEmpleados.cargar_datos (services.py lines 29-34): a missing
file yields the empty list, otherwise json.load runs and raises on a
malformed document. -/
def cargar_datos : ContenidoArchivo → Except ErrorCarga (List RegistroEmpleado)
  | .ausente => .ok []
  | .malformado => .error .decodificacion
  | .valido rs => .ok rs

/-- GestorEmpleados.cargar_empleados (services.py lines 50-53): decodes each
loaded record into an Empleado; errors from cargar_datos propagate. -/
def cargar_empleados (fc : ContenidoArchivo) : Except ErrorCarga (List Empleado) :=
  match cargar_datos fc with
  | .error err => .error err
  | .ok rs => .ok (rs.map empleado_de_registro)

/-- A file in the working directory: a stored payroll document or any other
file (source code, empleados.json, ...). -/
inductive Archivo where
  | nomina (doc : NominaDoc)
  | otro
deriving DecidableEq, Repr

/-- Writing a file with open(name, w): replaces the content if the name
exists, otherwise creates a new directory entry. -/
def escribir (dir : List (String × Archivo)) (nombre : String) (a : Archivo) :
    List (String × Archivo) :=
  if dir.any (fun p => p.1 = nombre) then
    dir.map (fun p => if p.1 = nombre then (p.1, a) else p)
  else dir ++ [(nombre, a)]

/-- Looks up a file by name. -/
def buscar (dir : List (String × Archivo)) (nombre : String) : Option Archivo :=
  (dir.find? (fun p => p.1 = nombre)).map (fun p => p.2)

/-- Name of the payroll file for a period (services.py lines 118, 126). -/
def nombre_archivo (aniomes : String) : String :=
  "nomina_" ++ aniomes ++ ".json"

/-- The generation loop of generar_nomina_mensual (services.py 112-116):
detail ids count from 1 in roster order, each detail is appended through
agregar_detalle. -/
def construir_nomina (id_nomina : ℕ) (aniomes : String)
    (empleados : List Empleado) : Nomina :=
  (empleados.enumFrom 1).foldl
    (fun n p => agregar_detalle n (generar_detalle p.2 p.1))
    (nueva_nomina id_nomina aniomes)

/-- GestorNominas.generar_nomina_mensual (services.py lines 100-122) acting
on the directory: an empty roster changes nothing; otherwise the payroll id
is the directory entry count plus one and the document is written to the
deterministic per-period file name. -/
def generar_nomina_mensual (dir : List (String × Archivo))
    (empleados : List Empleado) (aniomes : String) : List (String × Archivo) :=
  if empleados.isEmpty then dir
  else
    escribir dir (nombre_archivo aniomes)
      (.nomina (nomina_to_dict (construir_nomina (dir.length + 1) aniomes empleados)))

/-- Rebuilding one DetalleNomina from its stored record (services.py lines
136-143): only id, employee name, sueldo, bono, prestamo are read; the
derived amounts are recomputed by the constructor. -/
def reconstruir_registro (r : RegistroDetalle) : DetalleNomina :=
  mk_detalle r.id
    { cedula := "", nombre := r.empleado, sueldo := r.sueldo,
      departamento := "", cargo := "" }
    r.sueldo r.bono r.prestamo

/-- The statistics computed by consultar_estadisticas_nomina. -/
structure Estadisticas where
  total_empleados : ℕ
  total_neto : ℚ
  promedio_sueldos : ℚ
  nombres_altos : List String
  mayor_neto : Option DetalleNomina
  menor_neto : Option DetalleNomina
deriving DecidableEq, Repr

/-- Python max or min over a list with a key function: the fold keeps the
current element unless a later one has a strictly greater key, so the first
element attaining the extreme key wins.  max uses the key itself, min the
negated key. -/
def extremo_por (clave : DetalleNomina → ℚ) : List DetalleNomina →
    Option DetalleNomina
  | [] => none
  | d :: ds => some (ds.foldl (fun b x => if clave b < clave x then x else b) d)

/-- GestorNominas.consultar_estadisticas_nomina (services.py lines 124-169),
restricted to the computation on a loaded payroll document: details are
rebuilt through the DetalleNomina constructor, then the report quantities
are computed from the rebuilt details. -/
def consultar_estadisticas (doc : NominaDoc) : Estadisticas :=
  let detalles := doc.detalles.map reconstruir_registro
  let sueldos := detalles.map (fun d => d.sueldo)
  { total_empleados := detalles.length
    total_neto := detalles.foldl (fun ac d => ac + d.neto) 0
    promedio_sueldos :=
      if sueldos.isEmpty then 0 else sueldos.sum / (sueldos.length : ℚ)
    nombres_altos :=
      (detalles.filter (fun d => 1000 < d.sueldo)).map
        (fun d => d.empleado.nombre)
    mayor_neto := extremo_por (fun d => d.neto) detalles
    menor_neto := extremo_por (fun d => -d.neto) detalles }

/-- Base projection of a stored detail: the five fields the statistics
reconstruction reads. -/
def proyeccion_base (r : RegistroDetalle) : ℕ × String × ℚ × ℚ × ℚ :=
  (r.id, r.empleado, r.sueldo, r.bono, r.prestamo)

/-- GestorNominas.consultar_estadisticas_nomina at the file level
(services.py lines 124-132): a missing payroll file is reported and the
function returns without raising; an existing payroll file is loaded and
the statistics computed; json.load on a file that is not a payroll
document raises. -/
def consultar_estadisticas_nomina (dir : List (String × Archivo))
    (aniomes : String) : Except ErrorCarga (Option Estadisticas) :=
  match buscar dir (nombre_archivo aniomes) with
  | none => .ok none
  | some (Archivo.nomina doc) => .ok (some (consultar_estadisticas doc))
  | some Archivo.otro => .error .decodificacion

/-- Concrete employee used in witnesses. -/
def emp_ana : Empleado :=
  { cedula := "1234567890", nombre := "Ana", sueldo := 1000,
    departamento := "Ventas", cargo := "Gerente" }

/-- Candidate whose nombre contains a tab: the regex of the source accepts
it, the letters-and-spaces rule of the spec does not. -/
def cand_tab : Candidato :=
  { cedula := some "1234567890", nombre := some "a\tb", sueldo := some 500,
    departamento := some "Ventas", cargo := some "Gerente" }

/-- Candidate with sueldo 0, which validation rejects. -/
def cand_sueldo_cero : Candidato :=
  { cedula := some "1234567890", nombre := some "Ana", sueldo := some 0,
    departamento := some "Ventas", cargo := some "Gerente" }

/-- Changes dict that supplies a new cedula. -/
def cambios_cedula : Cambios := { cedula := some "0999999999" }

/-- Changes dict that supplies a nombre made of digits. -/
def cambios_nombre_num : Cambios := { nombre := some "123" }

/-- Stored payroll document with garbage derived fields and totals. -/
def doc_a : NominaDoc :=
  { id := 7, aniomes := "202401", tot_ing := 0, tot_des := 0, neto := 0,
    detalles :=
      [ { id := 1, empleado := "Ana", sueldo := 900, bono := 50,
          tot_ing := 1, iess := 2, prestamo := 20, tot_des := 3, neto := 4 },
        { id := 2, empleado := "Luis", sueldo := 1200, bono := 50,
          tot_ing := 5, iess := 6, prestamo := 20, tot_des := 7, neto := 8 } ] }

/-- Same base fields as doc_a, different derived fields and totals. -/
def doc_b : NominaDoc :=
  { id := 7, aniomes := "202401", tot_ing := 99, tot_des := 99, neto := 99,
    detalles :=
      [ { id := 1, empleado := "Ana", sueldo := 900, bono := 50,
          tot_ing := 111, iess := 222, prestamo := 20, tot_des := 333,
          neto := 444 },
        { id := 2, empleado := "Luis", sueldo := 1200, bono := 50,
          tot_ing := 555, iess := 666, prestamo := 20, tot_des := 777,
          neto := 888 } ] }

/-- Initial directory for the double-generation counterexample. -/
def dir_inicial : List (String × Archivo) := [("empleados.json", Archivo.otro)]

/-- Concrete valid candidate matching emp_ana. -/
def cand_ana : Candidato :=
  { cedula := some "1234567890", nombre := some "Ana", sueldo := some 1000,
    departamento := some "Ventas", cargo := some "Gerente" }

/-- Run id of a stored payroll file, 0 for anything else. -/
def id_de_nomina : Option Archivo → ℕ
  | some (Archivo.nomina doc) => doc.id
  | _ => 0

/-- Directory after one generation call for period 202401. -/
def dir_uno : List (String × Archivo) :=
  generar_nomina_mensual dir_inicial [emp_ana] "202401"

/-- Directory after a second generation call for the same period. -/
def dir_dos : List (String × Archivo) :=
  generar_nomina_mensual dir_uno [emp_ana] "202401"

theorem round_half_even_intCast (n : ℤ) : round_half_even (n : ℚ) = n := by
  norm_num [round_half_even]

theorem round2_mil : round2 ((1000 : ℚ) * (0.0945 : ℚ)) = (94.5 : ℚ) := by
  have h : (1000 : ℚ) * (0.0945 : ℚ) * 100 = ((9450 : ℤ) : ℚ) := by norm_num
  unfold round2
  rw [h, round_half_even_intCast]
  norm_num

theorem foldl_agregar_detalle (ds : List DetalleNomina) : ∀ n : Nomina,
    (ds.foldl agregar_detalle n).detalles = n.detalles ++ ds
    ∧ (ds.foldl agregar_detalle n).tot_ing
        = n.tot_ing + (ds.map DetalleNomina.tot_ing).sum
    ∧ (ds.foldl agregar_detalle n).tot_des
        = n.tot_des + (ds.map DetalleNomina.tot_des).sum
    ∧ (ds.foldl agregar_detalle n).neto
        = n.neto + (ds.map DetalleNomina.neto).sum := by
  induction ds with
  | nil => intro n; simp
  | cons d ds ih =>
    intro n
    obtain ⟨h1, h2, h3, h4⟩ := ih (agregar_detalle n d)
    simp only [List.foldl_cons, List.map_cons, List.sum_cons]
    refine ⟨?_, ?_, ?_, ?_⟩
    · rw [h1]; simp [agregar_detalle]
    · rw [h2]; simp [agregar_detalle]; ring
    · rw [h3]; simp [agregar_detalle]; ring
    · rw [h4]; simp [agregar_detalle]; ring

/-- C1: a PayrollDetail built from base salary s, bonus b and loan l has
gross income s + b, social security deduction round(s * 0.0945, 2), total
deductions equal to the social security deduction plus l, and net pay equal
to gross income minus total deductions; at s = 1000, b = 50, l = 20 these
are 1050, 94.5, 114.5 and 935.5. -/
theorem c1_calculo_detalle (idd : ℕ) (emp : Empleado) (s b l : ℚ) :
    (mk_detalle idd emp s b l).tot_ing = s + b
    ∧ (mk_detalle idd emp s b l).iess = round2 (s * (0.0945 : ℚ))
    ∧ (mk_detalle idd emp s b l).tot_des = (mk_detalle idd emp s b l).iess + l
    ∧ (mk_detalle idd emp s b l).neto
        = (mk_detalle idd emp s b l).tot_ing - (mk_detalle idd emp s b l).tot_des
    ∧ (mk_detalle idd emp 1000 50 20).tot_ing = 1050
    ∧ (mk_detalle idd emp 1000 50 20).iess = (94.5 : ℚ)
    ∧ (mk_detalle idd emp 1000 50 20).tot_des = (114.5 : ℚ)
    ∧ (mk_detalle idd emp 1000 50 20).neto = (935.5 : ℚ) := by
  refine ⟨rfl, rfl, rfl, rfl, ?_, ?_, ?_, ?_⟩ <;>
    simp [mk_detalle, round2_mil] <;> norm_num

/-- C2: appending details to a fresh Payroll keeps total gross, total
deductions and total net equal to the sums of the corresponding detail
fields after every append, and each single append updates the three running
totals incrementally from their previous values. -/
theorem c2_totales_incrementales (n : Nomina) (d : DetalleNomina) (idn : ℕ)
    (am : String) (ds : List DetalleNomina) :
    (agregar_detalle n d).detalles = n.detalles ++ [d]
    ∧ (agregar_detalle n d).tot_ing = n.tot_ing + d.tot_ing
    ∧ (agregar_detalle n d).tot_des = n.tot_des + d.tot_des
    ∧ (agregar_detalle n d).neto = n.neto + d.neto
    ∧ (ds.foldl agregar_detalle (nueva_nomina idn am)).detalles = ds
    ∧ (ds.foldl agregar_detalle (nueva_nomina idn am)).tot_ing
        = (ds.map DetalleNomina.tot_ing).sum
    ∧ (ds.foldl agregar_detalle (nueva_nomina idn am)).tot_des
        = (ds.map DetalleNomina.tot_des).sum
    ∧ (ds.foldl agregar_detalle (nueva_nomina idn am)).neto
        = (ds.map DetalleNomina.neto).sum := by
  obtain ⟨h1, h2, h3, h4⟩ := foldl_agregar_detalle ds (nueva_nomina idn am)
  exact ⟨rfl, rfl, rfl, rfl, by simpa [nueva_nomina] using h1,
    by simpa [nueva_nomina] using h2, by simpa [nueva_nomina] using h3,
    by simpa [nueva_nomina] using h4⟩

theorem reconstruir_sueldo (r : RegistroDetalle) :
    (reconstruir_registro r).sueldo = r.sueldo := rfl

theorem reconstruir_nombre (r : RegistroDetalle) :
    (reconstruir_registro r).empleado.nombre = r.empleado := rfl

theorem map_reconstruir_sueldo (rs : List RegistroDetalle) :
    (rs.map reconstruir_registro).map (fun d => d.sueldo)
      = rs.map RegistroDetalle.sueldo := by
  simp only [List.map_map]
  rfl

theorem altos_eq (rs : List RegistroDetalle) :
    ((rs.map reconstruir_registro).filter
        (fun d => decide ((1000 : ℚ) < d.sueldo))).map (fun d => d.empleado.nombre)
      = (rs.filter (fun r => decide ((1000 : ℚ) < r.sueldo))).map
          RegistroDetalle.empleado := by
  induction rs with
  | nil => rfl
  | cons r rs ih =>
    simp only [List.map_cons, List.filter_cons, reconstruir_sueldo]
    by_cases h : (1000 : ℚ) < r.sueldo
    · simp [h, ih, reconstruir_nombre]
    · simp [h, ih]

theorem plegar_extremo (clave : DetalleNomina → ℚ) :
    ∀ (ds : List DetalleNomina) (d : DetalleNomina),
      ∃ i, (d :: ds).get? i
            = some (ds.foldl (fun b x => if clave b < clave x then x else b) d)
        ∧ (∀ x ∈ d :: ds,
            clave x
              ≤ clave (ds.foldl (fun b x => if clave b < clave x then x else b) d))
        ∧ ∀ j x, j < i → (d :: ds).get? j = some x →
            clave x
              < clave (ds.foldl (fun b x => if clave b < clave x then x else b) d) := by
  intro ds
  induction ds with
  | nil =>
    intro d
    refine ⟨0, rfl, ?_, ?_⟩
    · intro x hx
      have hx0 : x = d := by simpa using hx
      rw [hx0]
      exact le_refl _
    · intro j x hj _
      exact absurd hj (Nat.not_lt_zero j)
  | cons y ds ih =>
    intro d
    have hf : (y :: ds).foldl (fun b x => if clave b < clave x then x else b) d
        = ds.foldl (fun b x => if clave b < clave x then x else b)
            (if clave d < clave y then y else d) := rfl
    by_cases hc : clave d < clave y
    · obtain ⟨i, hi, hall, hfirst⟩ := ih y
      rw [hf, if_pos hc]
      refine ⟨i + 1, ?_, ?_, ?_⟩
      · simpa using hi
      · intro x hx
        rcases List.mem_cons.mp hx with h | h
        · subst h
          exact le_of_lt (lt_of_lt_of_le hc (hall y (List.mem_cons_self y ds)))
        · exact hall x h
      · intro j x hj hx
        cases j with
        | zero =>
          have hx0 : d = x := by simpa using hx
          rw [← hx0]
          exact lt_of_lt_of_le hc (hall y (List.mem_cons_self y ds))
        | succ j =>
          exact hfirst j x (Nat.lt_of_succ_lt_succ hj) (by simpa using hx)
    · obtain ⟨i, hi, hall, hfirst⟩ := ih d
      rw [hf, if_neg hc]
      cases i with
      | zero =>
        refine ⟨0, by simpa using hi, ?_, ?_⟩
        · intro x hx
          rcases List.mem_cons.mp hx with h | h
          · rw [h]
            exact hall d (List.mem_cons_self d ds)
          · rcases List.mem_cons.mp h with h2 | h2
            · rw [h2]
              exact le_trans (le_of_not_lt hc) (hall d (List.mem_cons_self d ds))
            · exact hall x (List.mem_cons_of_mem d h2)
        · intro j x hj _
          exact absurd hj (Nat.not_lt_zero j)
      | succ i =>
        refine ⟨i + 2, by simpa using hi, ?_, ?_⟩
        · intro x hx
          rcases List.mem_cons.mp hx with h | h
          · rw [h]
            exact hall d (List.mem_cons_self d ds)
          · rcases List.mem_cons.mp h with h2 | h2
            · rw [h2]
              exact le_trans (le_of_not_lt hc) (hall d (List.mem_cons_self d ds))
            · exact hall x (List.mem_cons_of_mem d h2)
        · intro j x hj hx
          cases j with
          | zero =>
            have hx0 : d = x := by simpa using hx
            rw [← hx0]
            exact hfirst 0 d (Nat.succ_pos i) rfl
          | succ j =>
            cases j with
            | zero =>
              have hx0 : y = x := by simpa using hx
              rw [← hx0]
              exact lt_of_le_of_lt (le_of_not_lt hc) (hfirst 0 d (Nat.succ_pos i) rfl)
            | succ j =>
              exact hfirst (j + 1) x (by omega) (by simpa using hx)

theorem extremo_por_some (clave : DetalleNomina → ℚ) (l : List DetalleNomina)
    (r : DetalleNomina) (h : extremo_por clave l = some r) :
    ∃ i, l.get? i = some r ∧ (∀ x ∈ l, clave x ≤ clave r)
      ∧ ∀ j x, j < i → l.get? j = some x → clave x < clave r := by
  match l, h with
  | d :: ds, h =>
    have hr : ds.foldl (fun b x => if clave b < clave x then x else b) d = r := by
      simpa [extremo_por] using h
    obtain ⟨i, hi, hall, hfirst⟩ := plegar_extremo clave ds d
    rw [hr] at hi hall hfirst
    exact ⟨i, hi, hall, hfirst⟩

theorem extremo_por_eq_none (clave : DetalleNomina → ℚ)
    (l : List DetalleNomina) : extremo_por clave l = none ↔ l = [] := by
  cases l <;> simp [extremo_por]

/-- C3: on a loaded payroll document the report computes average_salary as
the mean of base salary (0 with no details), high_earners as the names of
details with base salary strictly above 1000 in detail order, and max_net
and min_net as the detail with greatest and least net pay, earliest first
on ties, or none with no details. -/
theorem c3_estadisticas (doc : NominaDoc) :
    (consultar_estadisticas doc).promedio_sueldos
      = (if doc.detalles = [] then 0
         else (doc.detalles.map RegistroDetalle.sueldo).sum
                / (doc.detalles.length : ℚ))
    ∧ (consultar_estadisticas doc).nombres_altos
      = (doc.detalles.filter (fun r => decide ((1000 : ℚ) < r.sueldo))).map
          RegistroDetalle.empleado
    ∧ ((consultar_estadisticas doc).mayor_neto = none ↔ doc.detalles = [])
    ∧ ((consultar_estadisticas doc).menor_neto = none ↔ doc.detalles = [])
    ∧ (∀ r, (consultar_estadisticas doc).mayor_neto = some r →
        ∃ i, (doc.detalles.map reconstruir_registro).get? i = some r
          ∧ (∀ x ∈ doc.detalles.map reconstruir_registro, x.neto ≤ r.neto)
          ∧ ∀ j x, j < i →
              (doc.detalles.map reconstruir_registro).get? j = some x →
                x.neto < r.neto)
    ∧ (∀ r, (consultar_estadisticas doc).menor_neto = some r →
        ∃ i, (doc.detalles.map reconstruir_registro).get? i = some r
          ∧ (∀ x ∈ doc.detalles.map reconstruir_registro, r.neto ≤ x.neto)
          ∧ ∀ j x, j < i →
              (doc.detalles.map reconstruir_registro).get? j = some x →
                r.neto < x.neto) := by
  obtain ⟨did, dam, dti, dtd, dne, dets⟩ := doc
  refine ⟨?_, ?_, ?_, ?_, ?_, ?_⟩
  · cases dets with
    | nil => simp [consultar_estadisticas]
    | cons r rs =>
      have hp : (consultar_estadisticas ⟨did, dam, dti, dtd, dne, r :: rs⟩).promedio_sueldos
          = (((r :: rs).map reconstruir_registro).map (fun d => d.sueldo)).sum
              / ((((r :: rs).map reconstruir_registro).map (fun d => d.sueldo)).length : ℚ) := rfl
      rw [hp, map_reconstruir_sueldo]
      simp
  · have ha : (consultar_estadisticas ⟨did, dam, dti, dtd, dne, dets⟩).nombres_altos
        = ((dets.map reconstruir_registro).filter
            (fun d => decide ((1000 : ℚ) < d.sueldo))).map
            (fun d => d.empleado.nombre) := rfl
    rw [ha, altos_eq]
  · have hm : (consultar_estadisticas ⟨did, dam, dti, dtd, dne, dets⟩).mayor_neto
        = extremo_por (fun d => d.neto) (dets.map reconstruir_registro) := rfl
    rw [hm, extremo_por_eq_none, List.map_eq_nil_iff]
  · have hm : (consultar_estadisticas ⟨did, dam, dti, dtd, dne, dets⟩).menor_neto
        = extremo_por (fun d => -d.neto) (dets.map reconstruir_registro) := rfl
    rw [hm, extremo_por_eq_none, List.map_eq_nil_iff]
  · intro r hr
    have hr2 : extremo_por (fun d => d.neto) (dets.map reconstruir_registro)
        = some r := hr
    obtain ⟨i, h1, h2, h3⟩ :=
      extremo_por_some (fun d => d.neto) (dets.map reconstruir_registro) r hr2
    exact ⟨i, h1, fun x hx => h2 x hx, fun j x hj hx => h3 j x hj hx⟩
  · intro r hr
    have hr2 : extremo_por (fun d => -d.neto) (dets.map reconstruir_registro)
        = some r := hr
    obtain ⟨i, h1, h2, h3⟩ :=
      extremo_por_some (fun d => -d.neto) (dets.map reconstruir_registro) r hr2
    exact ⟨i, h1, fun x hx => neg_le_neg_iff.mp (h2 x hx),
      fun j x hj hx => neg_lt_neg_iff.mp (h3 j x hj hx)⟩

theorem zip_self_snd_eq_fst {α : Type} :
    ∀ (l : List α) (p : α × α), p ∈ l.zip l → p.2 = p.1 := by
  intro l
  induction l with
  | nil => intro p hp; simp at hp
  | cons a l ih =>
    intro p hp
    have hz : (a :: l).zip (a :: l) = (a, a) :: l.zip l := rfl
    rw [hz] at hp
    rcases List.mem_cons.mp hp with h | h
    · rw [h]
    · exact ih p h

/-- C4 counterexample: a create call on an invalid candidate does not
return an indicator: the ValueError raised by the validation decorator
propagates to the caller (main.py installs no handler). -/
theorem c4_contraejemplo :
    crear_empleado [] cand_sueldo_cero
      = Except.error ValidationError.invalidSalary := by rfl

/-- C4 amended: lookup failures in update and delete are returned as a
false indicator without an exception, the calculator handles an empty
roster by reporting and producing no document, and the statistics query
handles a missing payroll file by reporting and returning nothing, neither
raising; but a validation failure makes create raise the ValueError of the
validator instead of returning an indicator, while a candidate that
validates is created with a boolean result. -/
theorem c4_indicadores :
    (∀ es ced c, (∀ e ∈ es, e.cedula ≠ ced) →
        modificar_empleado es ced c = (es, false))
    ∧ (∀ es ced, (∀ e ∈ es, e.cedula ≠ ced) →
        eliminar_empleado es ced = (es, false))
    ∧ (∀ dir am, generar_nomina_mensual dir [] am = dir)
    ∧ (∀ dir am, buscar dir (nombre_archivo am) = none →
        consultar_estadisticas_nomina dir am = Except.ok none)
    ∧ (∀ dir am doc,
        buscar dir (nombre_archivo am) = some (Archivo.nomina doc) →
        consultar_estadisticas_nomina dir am
          = Except.ok (some (consultar_estadisticas doc)))
    ∧ (∀ es cand err, validate_empleado cand = Except.error err →
        crear_empleado es cand = Except.error err)
    ∧ (∀ es cand, validate_empleado cand = Except.ok () →
        ∃ r, crear_empleado es cand = Except.ok r) := by
  refine ⟨?_, ?_, ?_, ?_, ?_, ?_, ?_⟩
  · intro es ced c
    induction es with
    | nil => intro _; rfl
    | cons e es ih =>
      intro h
      have he : e.cedula ≠ ced := h e (List.mem_cons_self e es)
      have hrest := ih (fun x hx => h x (List.mem_cons_of_mem e hx))
      simp [modificar_empleado, he, hrest]
  · intro es ced
    induction es with
    | nil => intro _; rfl
    | cons e es ih =>
      intro h
      have he : e.cedula ≠ ced := h e (List.mem_cons_self e es)
      have hrest := ih (fun x hx => h x (List.mem_cons_of_mem e hx))
      simp [eliminar_empleado, he, hrest]
  · intro dir am
    rfl
  · intro dir am h
    simp [consultar_estadisticas_nomina, h]
  · intro dir am doc h
    simp [consultar_estadisticas_nomina, h]
  · intro es cand err h
    simp [crear_empleado, h]
  · intro es cand h
    by_cases hdup : es.any (fun e => some e.cedula = cand.cedula)
    · exact ⟨(es, false), by simp [crear_empleado, h, hdup]⟩
    · refine ⟨(es ++
        [{ cedula := cand.cedula.getD "", nombre := cand.nombre.getD "",
           sueldo := cand.sueldo.getD 0,
           departamento := cand.departamento.getD "",
           cargo := cand.cargo.getD "" }], true), ?_⟩
      simp [crear_empleado, h, hdup]

theorem c4_testigo :
    modificar_empleado [emp_ana] "0000000000" cambios_nombre_num
      = ([emp_ana], false)
    ∧ eliminar_empleado [emp_ana] "0000000000" = ([emp_ana], false)
    ∧ generar_nomina_mensual dir_inicial [] "202401" = dir_inicial
    ∧ consultar_estadisticas_nomina dir_inicial "202401" = Except.ok none
    ∧ consultar_estadisticas_nomina
        [(nombre_archivo "202401", Archivo.nomina doc_a)] "202401"
      = Except.ok (some (consultar_estadisticas doc_a))
    ∧ crear_empleado [emp_ana] cand_sueldo_cero
        = Except.error ValidationError.invalidSalary
    ∧ ∃ r, crear_empleado [] cand_ana = Except.ok r :=
  ⟨c4_indicadores.1 [emp_ana] "0000000000" cambios_nombre_num (by decide),
   c4_indicadores.2.1 [emp_ana] "0000000000" (by decide),
   c4_indicadores.2.2.1 dir_inicial "202401",
   c4_indicadores.2.2.2.1 dir_inicial "202401" (by rfl),
   c4_indicadores.2.2.2.2.1
     [(nombre_archivo "202401", Archivo.nomina doc_a)] "202401" doc_a (by rfl),
   c4_indicadores.2.2.2.2.2.1 [emp_ana] cand_sueldo_cero
     ValidationError.invalidSalary (by rfl),
   c4_indicadores.2.2.2.2.2.2 [] cand_ana (by rfl)⟩

/-- C5: the roster update operation applies every supplied field with
setattr and performs no validation at all, although the validator's own
docstring says it validates before creation or update: a nombre of digits
is accepted and stored, where validate_empleado would reject it. -/
theorem c5_sin_validacion :
    modificar_empleado [emp_ana] "1234567890" cambios_nombre_num
      = ([{ emp_ana with nombre := "123" }], true)
    ∧ texto_valido "123" = false
    ∧ validate_empleado { cand_ana with nombre := some "123" }
        = Except.error ValidationError.invalidText := by
  refine ⟨?_, ?_, ?_⟩ <;> rfl

/-- C6 counterexample: the update operation does change cedula when the
changes dict supplies one, so cedula is not immutable across roster
operations. -/
theorem c6_contraejemplo :
    emp_ana.cedula = "1234567890"
    ∧ (modificar_empleado [emp_ana] "1234567890" cambios_cedula).2 = true
    ∧ (modificar_empleado [emp_ana] "1234567890" cambios_cedula).1.map
        Empleado.cedula = ["0999999999"] := by
  refine ⟨rfl, rfl, rfl⟩

/-- C6 amended: an update changes only the supplied fields of the matched
employee — every unsupplied field, including cedula when not supplied, is
unchanged, and employees whose cedula differs from the key are untouched —
but a supplied cedula is applied like any other field; cedula immutability
is enforced only by the CLI never offering it. -/
theorem c6_solo_campos_modificados (es : List Empleado) (ced : String)
    (c : Cambios) :
    (modificar_empleado es ced c).1.length = es.length
    ∧ ∀ p ∈ es.zip (modificar_empleado es ced c).1,
        (c.cedula = none → p.2.cedula = p.1.cedula)
        ∧ (c.nombre = none → p.2.nombre = p.1.nombre)
        ∧ (c.sueldo = none → p.2.sueldo = p.1.sueldo)
        ∧ (c.departamento = none → p.2.departamento = p.1.departamento)
        ∧ (c.cargo = none → p.2.cargo = p.1.cargo)
        ∧ (p.1.cedula ≠ ced → p.2 = p.1) := by
  induction es with
  | nil => exact ⟨rfl, by intro p hp; simp at hp⟩
  | cons e es ih =>
    by_cases he : e.cedula = ced
    · have hm : modificar_empleado (e :: es) ced c
          = (aplicar_cambios c e :: es, true) := by
        simp [modificar_empleado, he]
      refine ⟨by rw [hm]; simp, ?_⟩
      rw [hm]
      intro p hp
      have hz : (e :: es).zip (aplicar_cambios c e :: es)
          = (e, aplicar_cambios c e) :: es.zip es := rfl
      rw [hz] at hp
      rcases List.mem_cons.mp hp with h | h
      · rw [h]
        refine ⟨?_, ?_, ?_, ?_, ?_, ?_⟩
        · intro hn; simp [aplicar_cambios, hn]
        · intro hn; simp [aplicar_cambios, hn]
        · intro hn; simp [aplicar_cambios, hn]
        · intro hn; simp [aplicar_cambios, hn]
        · intro hn; simp [aplicar_cambios, hn]
        · intro hne; exact absurd he hne
      · have h21 := zip_self_snd_eq_fst es p h
        rw [h21]
        exact ⟨fun _ => rfl, fun _ => rfl, fun _ => rfl, fun _ => rfl,
          fun _ => rfl, fun _ => rfl⟩
    · obtain ⟨ihl, ihp⟩ := ih
      have hm : modificar_empleado (e :: es) ced c
          = (e :: (modificar_empleado es ced c).1,
             (modificar_empleado es ced c).2) := by
        simp [modificar_empleado, he]
      refine ⟨by rw [hm]; simp [ihl], ?_⟩
      rw [hm]
      intro p hp
      have hz : (e :: es).zip (e :: (modificar_empleado es ced c).1)
          = (e, e) :: es.zip (modificar_empleado es ced c).1 := rfl
      rw [hz] at hp
      rcases List.mem_cons.mp hp with h | h
      · rw [h]
        exact ⟨fun _ => rfl, fun _ => rfl, fun _ => rfl, fun _ => rfl,
          fun _ => rfl, fun _ => rfl⟩
      · exact ihp p h

/-- C7 counterexample: a nombre containing a tab is not letters-and-spaces,
yet validation accepts it, because the regex class backslash-s matches any
whitespace. -/
theorem c7_contraejemplo :
    validate_empleado cand_tab = Except.ok ()
    ∧ cand_tab.nombre = some "a\tb"
    ∧ solo_letras_y_espacios "a\tb" = false := by
  refine ⟨rfl, rfl, rfl⟩

/-- C7 amended: a candidate missing any field fails as MissingField; with
all five fields supplied, validation succeeds exactly when sueldo is
positive, the cedula is ten characters accepted by str.isdigit (the
Unicode digit characters) and the three text fields are non-empty and
contain only ASCII letters and Unicode whitespace (the regex class
backslash-s), and otherwise it fails with the corresponding kind in check
order: InvalidSalary, then InvalidCedula, then InvalidText. -/
theorem c7_validacion (cand : Candidato) :
    (campos_completos cand = false →
        validate_empleado cand = Except.error ValidationError.missingField)
    ∧ ∀ ced nom dep car (sue : ℚ),
        cand = ⟨some ced, some nom, some sue, some dep, some car⟩ →
        ((validate_empleado cand = Except.ok ()
            ↔ 0 < sue ∧ cedula_valida ced = true ∧ texto_valido nom = true
              ∧ texto_valido dep = true ∧ texto_valido car = true)
          ∧ (sue ≤ 0 →
              validate_empleado cand = Except.error ValidationError.invalidSalary)
          ∧ (0 < sue → cedula_valida ced = false →
              validate_empleado cand = Except.error ValidationError.invalidCedula)
          ∧ (0 < sue → cedula_valida ced = true →
              (texto_valido nom = false ∨ texto_valido dep = false
                ∨ texto_valido car = false) →
              validate_empleado cand = Except.error ValidationError.invalidText)) := by
  constructor
  · rcases cand with ⟨f1, f2, f3, f4, f5⟩
    rcases f1 with _ | ced
    · intro _; rfl
    rcases f2 with _ | nom
    · intro _; rfl
    rcases f3 with _ | sue
    · intro _; rfl
    rcases f4 with _ | dep
    · intro _; rfl
    rcases f5 with _ | car
    · intro _; rfl
    intro h
    simp [campos_completos] at h
  · intro ced nom dep car sue hc
    subst hc
    have hv : validate_empleado ⟨some ced, some nom, some sue, some dep, some car⟩
        = (if sue ≤ 0 then Except.error ValidationError.invalidSalary
           else if !cedula_valida ced then Except.error ValidationError.invalidCedula
           else if !texto_valido nom then Except.error ValidationError.invalidText
           else if !texto_valido dep then Except.error ValidationError.invalidText
           else if !texto_valido car then Except.error ValidationError.invalidText
           else Except.ok ()) := rfl
    refine ⟨?_, ?_, ?_, ?_⟩
    · rw [hv]
      split_ifs with h1 h2 h3 h4 h5
      · exact ⟨fun h => absurd h (by simp),
          fun h => absurd h.1 (not_lt.mpr h1)⟩
      · refine ⟨fun h => absurd h (by simp), ?_⟩
        rintro ⟨_, hcv, _⟩
        rw [hcv] at h2
        simp at h2
      · refine ⟨fun h => absurd h (by simp), ?_⟩
        rintro ⟨_, _, hnv, _⟩
        rw [hnv] at h3
        simp at h3
      · refine ⟨fun h => absurd h (by simp), ?_⟩
        rintro ⟨_, _, _, hdv, _⟩
        rw [hdv] at h4
        simp at h4
      · refine ⟨fun h => absurd h (by simp), ?_⟩
        rintro ⟨_, _, _, _, hcav⟩
        rw [hcav] at h5
        simp at h5
      · refine ⟨fun _ => ⟨not_le.mp h1, ?_, ?_, ?_, ?_⟩, fun _ => rfl⟩
        · simpa using h2
        · simpa using h3
        · simpa using h4
        · simpa using h5
    · intro hs
      rw [hv, if_pos hs]
    · intro hpos hced
      rw [hv, if_neg (not_le.mpr hpos), if_pos (by simp [hced])]
    · intro hpos hced htext
      rw [hv, if_neg (not_le.mpr hpos), if_neg (by simp [hced])]
      rcases htext with h | h | h
      · rw [if_pos (by simp [h])]
      · by_cases hn : texto_valido nom = true
        · rw [if_neg (by simp [hn]), if_pos (by simp [h])]
        · rw [if_pos (by simp [Bool.not_eq_true] at hn ⊢; exact hn)]
      · by_cases hn : texto_valido nom = true
        · by_cases hd2 : texto_valido dep = true
          · rw [if_neg (by simp [hn]), if_neg (by simp [hd2]),
              if_pos (by simp [h])]
          · rw [if_neg (by simp [hn]),
              if_pos (by simp [Bool.not_eq_true] at hd2 ⊢; exact hd2)]
        · rw [if_pos (by simp [Bool.not_eq_true] at hn ⊢; exact hn)]

theorem map_reemplazo_id (l : List (String × Archivo)) (nombre : String)
    (a : Archivo) (h : ∀ p ∈ l, p.1 ≠ nombre) :
    l.map (fun p => if p.1 = nombre then (p.1, a) else p) = l := by
  induction l with
  | nil => rfl
  | cons q l ih =>
    have hq : q.1 ≠ nombre := h q (List.mem_cons_self q l)
    simp only [List.map_cons, if_neg hq]
    rw [ih (fun x hx => h x (List.mem_cons_of_mem q hx))]

/-- C8 counterexample: after generating twice for period 202401 from a
directory holding one other file, only one payroll file for the period
exists; the first run wrote id 2 and the second overwrote the same file
with id 3, so no second independent document was produced. -/
theorem c8_contraejemplo :
    dir_uno.length = 2
    ∧ dir_dos.length = 2
    ∧ (dir_dos.filter (fun p => p.1 = nombre_archivo "202401")).length = 1
    ∧ id_de_nomina (buscar dir_uno (nombre_archivo "202401")) = 2
    ∧ id_de_nomina (buscar dir_dos (nombre_archivo "202401")) = 3 := by
  refine ⟨rfl, rfl, rfl, rfl, rfl⟩

/-- C8 amended: with a roster and a directory not yet holding the period's
file, the first generation appends a payroll document whose run id is the
directory count plus one; a second call for the same period overwrites that
same file with a new document with the next id — the first document is
lost rather than kept as an independent second one. -/
theorem c8_sobreescritura (dir : List (String × Archivo)) (es : List Empleado)
    (am : String) (hne : es ≠ []) (hfree : ∀ p ∈ dir, p.1 ≠ nombre_archivo am) :
    generar_nomina_mensual dir es am
      = dir ++ [(nombre_archivo am,
          Archivo.nomina (nomina_to_dict (construir_nomina (dir.length + 1) am es)))]
    ∧ generar_nomina_mensual (generar_nomina_mensual dir es am) es am
      = dir ++ [(nombre_archivo am,
          Archivo.nomina (nomina_to_dict (construir_nomina (dir.length + 2) am es)))] := by
  have hemp : es.isEmpty = false := by
    cases es with
    | nil => exact absurd rfl hne
    | cons a l => rfl
  have hany : dir.any (fun p => p.1 = nombre_archivo am) = false := by
    rw [List.any_eq_false]
    intro p hp
    simpa using hfree p hp
  have h1 : generar_nomina_mensual dir es am
      = dir ++ [(nombre_archivo am,
          Archivo.nomina (nomina_to_dict (construir_nomina (dir.length + 1) am es)))] := by
    simp [generar_nomina_mensual, hemp, escribir, hany]
  refine ⟨h1, ?_⟩
  rw [h1]
  have hany2 : (dir ++ [(nombre_archivo am,
      Archivo.nomina (nomina_to_dict (construir_nomina (dir.length + 1) am es)))]).any
        (fun p => p.1 = nombre_archivo am) = true := by
    simp
  simp only [generar_nomina_mensual, hemp, Bool.false_eq_true, if_false,
    escribir, hany2, if_true, List.length_append, List.length_singleton,
    List.map_append, List.map_cons, List.map_nil, if_pos rfl]
  rw [map_reemplazo_id dir (nombre_archivo am) _ hfree]

/-- C9 counterexample: a malformed roster document does not load as an
empty roster; json.load raises a decode error that nothing catches. -/
theorem c9_contraejemplo :
    cargar_empleados ContenidoArchivo.malformado
      = Except.error ErrorCarga.decodificacion := rfl

/-- C9 amended: loading with a missing roster file yields the empty roster
without an error and a well-formed document decodes to its employees, but a
malformed document raises a decode error instead of yielding an empty
roster. -/
theorem c9_carga (rs : List RegistroEmpleado) :
    cargar_empleados ContenidoArchivo.ausente = Except.ok []
    ∧ cargar_empleados (ContenidoArchivo.valido rs)
        = Except.ok (rs.map empleado_de_registro)
    ∧ cargar_empleados ContenidoArchivo.malformado
        = Except.error ErrorCarga.decodificacion :=
  ⟨rfl, rfl, rfl⟩

/-- C10: the statistics report reads only id, employee name, sueldo, bono
and prestamo of each stored detail and recomputes every derived amount, so
two documents agreeing on those fields produce identical reports whatever
their stored derived fields or totals. -/
theorem c10_estadisticas_recomputa (doc1 doc2 : NominaDoc)
    (_hid : doc1.id = doc2.id) (_ham : doc1.aniomes = doc2.aniomes)
    (hdet : doc1.detalles.map proyeccion_base
        = doc2.detalles.map proyeccion_base) :
    consultar_estadisticas doc1 = consultar_estadisticas doc2 := by
  have hrec : ∀ (rs : List RegistroDetalle),
      rs.map reconstruir_registro
        = (rs.map proyeccion_base).map (fun p =>
            mk_detalle p.1
              { cedula := "", nombre := p.2.1, sueldo := p.2.2.1,
                departamento := "", cargo := "" }
              p.2.2.1 p.2.2.2.1 p.2.2.2.2) := by
    intro rs
    rw [List.map_map]
    rfl
  have h : doc1.detalles.map reconstruir_registro
      = doc2.detalles.map reconstruir_registro := by
    rw [hrec, hrec, hdet]
  simp only [consultar_estadisticas]
  rw [h]

theorem c10_testigo :
    doc_a.id = doc_b.id ∧ doc_a.aniomes = doc_b.aniomes
    ∧ doc_a.detalles.map proyeccion_base = doc_b.detalles.map proyeccion_base
    ∧ consultar_estadisticas doc_a = consultar_estadisticas doc_b :=
  ⟨rfl, rfl, by decide,
   c10_estadisticas_recomputa doc_a doc_b rfl rfl (by decide)⟩

theorem c8_testigo :
    ([emp_ana] ≠ ([] : List Empleado))
    ∧ (∀ p ∈ dir_inicial, p.1 ≠ nombre_archivo "202401")
    ∧ generar_nomina_mensual
        (generar_nomina_mensual dir_inicial [emp_ana] "202401")
        [emp_ana] "202401"
      = dir_inicial ++ [(nombre_archivo "202401",
          Archivo.nomina (nomina_to_dict (construir_nomina 3 "202401" [emp_ana])))] :=
  ⟨by decide, by decide,
   (c8_sobreescritura dir_inicial [emp_ana] "202401" (by decide) (by decide)).2⟩
